import Mathlib

/-!
Verification development for the OpenHands Resolver MCP orchestration core.

The repository's JavaScript source is shallowly embedded in Lean:

* `src/modules/configuration` (the configuration module): `defaultConfig`,
  `mergeConfig`/`deepMerge`, `loadFromEnvironment`, `validateConfig`,
  `initConfig` (embedding `initialize`) and `saveConfigToFile`.
* `src/modules/trigger_detection`: `detectTrigger`, `extractIssueList`,
  `validateTrigger`, with the three regular expressions of the module compiled
  by hand into deterministic matchers.  Almost every greedy piece is a
  character class excluding the delimiter that follows it (or `(.*)`/`s?`
  whose greedy choice is forced), so those choices compile to maximal runs;
  the one genuine backtracking case is the final `\s+` of the repo-wide
  regex, whose following `([^\/]+)` class overlaps `\s` — it is compiled
  explicitly in `matchRepoAt` (see its doc comment), so the matchers are
  exact.
* `src/index.js`: `resolveIssue`, `resolveBatch`, `handleMcpInvocation`.
* `src/modules/batch_processing` is not part of the sources; `processBatch`
  and `processBatchWith` are modelled from the spec (see their doc comments).

JavaScript numbers are modelled exactly as rationals (`ℚ`) and integers
(`Int`); the float rounding that IEEE doubles would introduce beyond 2^53 and
the non-finite values `Infinity`/`NaN` as stored values are outside the model
(no claim depends on them; `NaN` results of parsing are modelled as `none`).
-/

/-! ### JavaScript primitives: whitespace, truthiness, number parsing -/

/-- The character class `\s` of JavaScript regular expressions and the
whitespace skipped by `parseFloat`/`parseInt` (ECMA-262 StrWhiteSpaceChar). -/
def isJsSpace (c : Char) : Bool :=
  c == ' ' || c == '\t' || c == '\n' || c == '\r' ||
  c.toNat == 0x0b || c.toNat == 0x0c || c.toNat == 0xa0 || c.toNat == 0x1680 ||
  (0x2000 ≤ c.toNat && c.toNat ≤ 0x200a) || c.toNat == 0x2028 || c.toNat == 0x2029 ||
  c.toNat == 0x202f || c.toNat == 0x205f || c.toNat == 0x3000 || c.toNat == 0xfeff

/-- ECMA-262 LineTerminator: the characters that `.` does not match in a
regular expression without the `s` flag. -/
def isLineTerm (c : Char) : Bool :=
  c == '\n' || c == '\r' || c.toNat == 0x2028 || c.toNat == 0x2029

/-- Numeric value of a decimal digit character. -/
def digitVal (c : Char) : Nat := c.toNat - '0'.toNat

/-- Value of a list of decimal digit characters read left to right. -/
def digitsToNat (ds : List Char) : Nat := ds.foldl (fun a c => 10 * a + digitVal c) 0

/-- `(10 : ℚ) ^ n`, written as structural recursion so that it evaluates by
kernel reduction. -/
def pow10 : Nat → ℚ
  | 0 => 1
  | n + 1 => 10 * pow10 n

/-- `10 ^ e` over `ℚ` for a signed exponent. -/
def qpow10 : Int → ℚ
  | Int.ofNat n => pow10 n
  | Int.negSucc n => 1 / pow10 (n + 1)

/-- Exponent part of a JS float literal: consumes `[eE][+-]?digits` only when
the digits are present (longest valid prefix), otherwise contributes 0. -/
def expPart (cs : List Char) : Int :=
  match cs with
  | c :: r =>
    if c == 'e' || c == 'E' then
      let (es, r1) : Int × List Char :=
        match r with
        | '-' :: rr => (-1, rr)
        | '+' :: rr => (1, rr)
        | _ => (1, r)
      let ds := r1.takeWhile Char.isDigit
      if ds.isEmpty then 0 else es * (digitsToNat ds : Int)
    else 0
  | [] => 0

/-- JS `parseFloat`, restricted to finite results: leading whitespace is
skipped, then the longest prefix of the form
`[+-]? (digits [. digits?]? | . digits) ([eE][+-]?digits)?` is converted; a
missing numeric prefix (JS `NaN`) is `none`.  The `Infinity` literal, which
JS `parseFloat` also accepts, is not representable in `ℚ` and is out of the
model's scope (no claim exercises it). -/
def jsParseFloat (s : String) : Option ℚ :=
  let cs := s.data.dropWhile isJsSpace
  let (sgn, cs1) : ℚ × List Char :=
    match cs with
    | '-' :: r => (-1, r)
    | '+' :: r => (1, r)
    | _ => (1, cs)
  let ip := cs1.takeWhile Char.isDigit
  let r1 := cs1.dropWhile Char.isDigit
  let (fp, r2) : List Char × List Char :=
    match r1 with
    | '.' :: r => (r.takeWhile Char.isDigit, r.dropWhile Char.isDigit)
    | _ => ([], r1)
  if ip.isEmpty && fp.isEmpty then none
  else
    let mant : ℚ := (digitsToNat ip : ℚ) + (digitsToNat fp : ℚ) / pow10 fp.length
    some (sgn * mant * qpow10 (expPart r2))

/-- JS `parseInt(s, 10)`: leading whitespace skipped, optional sign, longest
decimal digit prefix; `none` models the `NaN` result when no digit follows. -/
def jsParseInt (s : String) : Option Int :=
  let cs := s.data.dropWhile isJsSpace
  let (sgn, cs1) : Int × List Char :=
    match cs with
    | '-' :: r => (-1, r)
    | '+' :: r => (1, r)
    | _ => (1, cs)
  let ds := cs1.takeWhile Char.isDigit
  if ds.isEmpty then none else some (sgn * (digitsToNat ds : Int))

/-! ### JSON-like documents and the configuration module's `deepMerge`

`mergeConfig` in `src/modules/configuration` deep-merges an arbitrary loaded
document into the current configuration; the documents are modelled as
JSON-like values with insertion-ordered fields. -/

/-- A JavaScript/JSON value as handled by the configuration module. -/
inductive JValue where
  | null
  | bool (b : Bool)
  | num (q : ℚ)
  | str (s : String)
  | arr (elems : List JValue)
  | obj (fields : List (String × JValue))

/-- JS truthiness of a `JValue` (`if (source[key])`): `null`, `false`, `0` and
`""` are falsy; every object and array is truthy. -/
def JValue.truthy : JValue → Bool
  | .null => false
  | .bool b => b
  | .num q => decide (q ≠ 0)
  | .str s => decide (s ≠ "")
  | .arr _ => true
  | .obj _ => true

/-- Property lookup on an insertion-ordered object. -/
def objGet (fields : List (String × JValue)) (k : String) : Option JValue :=
  match fields with
  | [] => none
  | (k1, v) :: rest => if k1 = k then some v else objGet rest k

/-- Property assignment on an insertion-ordered object: an existing key keeps
its position (JS property update), a new key is appended (JS property add). -/
def objSet (fields : List (String × JValue)) (k : String) (v : JValue) :
    List (String × JValue) :=
  match fields with
  | [] => [(k, v)]
  | (k1, v1) :: rest => if k1 = k then (k, v) :: rest else (k1, v1) :: objSet rest k v

/-- The body of `deepMerge` (configuration module, lines 200-209): for each
source key in order, a truthy non-array object value is merged recursively
(into `{}` when the target value is absent or falsy; a truthy non-object
target value is left as is, since JS property assignment on a primitive is a
silent no-op), every other value — arrays, primitives, `null` — replaces the
target value wholesale. (A truthy non-object target that is an array would in
JS additionally receive the source's named properties; such non-index array
properties have no JSON representation and are outside this model — no claim
nor any configuration-shaped document reaches that corner.) -/
def deepMergeFields : List (String × JValue) → List (String × JValue) →
    List (String × JValue)
  | target, [] => target
  | target, (k, JValue.obj sfields) :: rest =>
    let newSub : JValue :=
      match objGet target k with
      | some (JValue.obj tfields) => JValue.obj (deepMergeFields tfields sfields)
      | some v => if v.truthy then v else JValue.obj (deepMergeFields [] sfields)
      | none => JValue.obj (deepMergeFields [] sfields)
    deepMergeFields (objSet target k newSub) rest
  | target, (k, sv) :: rest => deepMergeFields (objSet target k sv) rest
  termination_by _ source => sizeOf source
  decreasing_by all_goals simp_wf <;> omega

/-- `deepMerge(target, source)` of the configuration module.  A non-object
source contributes no enumerable own keys to `for..in` for primitives, so the
target is returned unchanged (and `mergeConfig` only ever passes the loaded
configuration document, an object, as the source). -/
def deepMerge : JValue → JValue → JValue
  | JValue.obj tfields, JValue.obj sfields => JValue.obj (deepMergeFields tfields sfields)
  | target, _ => target

/-- `mergeConfig(newConfig)` (configuration module, lines 196-212): a falsy
argument is ignored, otherwise the document is deep-merged into the current
configuration. -/
def mergeConfig (current newConfig : JValue) : JValue :=
  if newConfig.truthy then deepMerge current newConfig else current

/-- Keys of an object's field list are pairwise distinct (always true of a
real JS object, whose properties are unique). -/
def keysNodup (fields : List (String × JValue)) : Prop :=
  (fields.map Prod.fst).Nodup

instance (fields : List (String × JValue)) : Decidable (keysNodup fields) := by
  unfold keysNodup; infer_instance

/-! ### The typed configuration (schema of `defaultConfig`, lines 12-63)

For the claims about `initialize`, `loadFromEnvironment`, `validateConfig` and
`saveConfigToFile`, the configuration is embedded with its schema types (the
shape of `defaultConfig`); a configuration file document is embedded as the
same shape with every section and field optional, on which `deepMerge` acts
field-wise right-biased (each leaf of the schema is a non-object value, so
`deepMerge` assigns it wholesale, and each section is an object, so it is
merged recursively — exactly the per-field merge below). -/

structure GithubSettings where
  timeout : Int
  maxRetries : Int
  maxConcurrent : Int
deriving DecidableEq

structure AiSettings where
  model : String
  temperature : ℚ
  maxTokens : Int
  systemMessage : String
deriving DecidableEq

structure TaskSettings where
  maxContextSnippets : Int
  maxFileSize : Int
  prioritizeErrorContext : Bool
deriving DecidableEq

structure PullRequestSettings where
  defaultAsDraft : Bool
  defaultBaseBranch : String
  titleMarker : String  -- JS key: titlePrefix
  addLabels : List String
  createCheckList : Bool
deriving DecidableEq

/-- The `security` section.  `tokens` and `credentials` are not part of
`defaultConfig` but can be populated by `updateConfig`/`mergeConfig`;
`saveConfigToFile` deletes them, so they are carried as optional fields (their
payload type is irrelevant to every claim and is modelled as `String`). -/
structure SecuritySettings where
  tokenEnvName : String
  validateCodeBeforeCommit : Bool
  allowedFileTypes : List String
  tokens : Option String := none
  credentials : Option String := none
deriving DecidableEq

structure BatchSettings where
  maxConcurrent : Int
  maxIssuesPerBatch : Int
deriving DecidableEq

structure DebugSettings where
  enabled : Bool
  saveResponses : Bool
  verboseLogging : Bool
deriving DecidableEq

structure Config where
  github : GithubSettings
  ai : AiSettings
  task : TaskSettings
  pullRequest : PullRequestSettings
  security : SecuritySettings
  batch : BatchSettings
  debug : DebugSettings
deriving DecidableEq

/-- `defaultConfig` (configuration module, lines 12-63). -/
def defaultConfig : Config :=
  { github := { timeout := 10000, maxRetries := 3, maxConcurrent := 5 }
    ai := { model := "claude-3-opus-20240229", temperature := 2/10, maxTokens := 4000,
            systemMessage := "You are OpenHands, an AI agent designed to resolve GitHub issues by generating code fixes." }
    task := { maxContextSnippets := 10, maxFileSize := 100000, prioritizeErrorContext := true }
    pullRequest := { defaultAsDraft := true, defaultBaseBranch := "",
                     titleMarker := "OpenHands: ",
                     addLabels := ["ai-assisted"], createCheckList := true }
    security := { tokenEnvName := "GITHUB_TOKEN", validateCodeBeforeCommit := true,
                  allowedFileTypes := [".js", ".jsx", ".ts", ".tsx", ".py", ".rb", ".java", ".go", ".php", ".c", ".cpp", ".h", ".cs", ".md", ".txt", ".json", ".yml", ".yaml"] }
    batch := { maxConcurrent := 3, maxIssuesPerBatch := 10 }
    debug := { enabled := false, saveResponses := false, verboseLogging := false } }

/-! A configuration file document: the schema with every field optional. -/

structure PartialGithubSettings where
  timeout : Option Int := none
  maxRetries : Option Int := none
  maxConcurrent : Option Int := none

structure PartialAiSettings where
  model : Option String := none
  temperature : Option ℚ := none
  maxTokens : Option Int := none
  systemMessage : Option String := none

structure PartialTaskSettings where
  maxContextSnippets : Option Int := none
  maxFileSize : Option Int := none
  prioritizeErrorContext : Option Bool := none

structure PartialPullRequestSettings where
  defaultAsDraft : Option Bool := none
  defaultBaseBranch : Option String := none
  titleMarker : Option String := none
  addLabels : Option (List String) := none
  createCheckList : Option Bool := none

structure PartialSecuritySettings where
  tokenEnvName : Option String := none
  validateCodeBeforeCommit : Option Bool := none
  allowedFileTypes : Option (List String) := none
  tokens : Option String := none
  credentials : Option String := none

structure PartialBatchSettings where
  maxConcurrent : Option Int := none
  maxIssuesPerBatch : Option Int := none

structure PartialDebugSettings where
  enabled : Option Bool := none
  saveResponses : Option Bool := none
  verboseLogging : Option Bool := none

structure PartialConfig where
  github : Option PartialGithubSettings := none
  ai : Option PartialAiSettings := none
  task : Option PartialTaskSettings := none
  pullRequest : Option PartialPullRequestSettings := none
  security : Option PartialSecuritySettings := none
  batch : Option PartialBatchSettings := none
  debug : Option PartialDebugSettings := none

/-- `deepMerge` specialised to a schema-shaped document: a present leaf is
assigned wholesale (the `else` branch of `deepMerge` — leaves of the schema
are strings, numbers, booleans or arrays, never objects), an absent leaf
leaves the target field untouched. -/
def mergeGithubSettings (a : GithubSettings) (p : PartialGithubSettings) : GithubSettings :=
  { timeout := p.timeout.getD a.timeout
    maxRetries := p.maxRetries.getD a.maxRetries
    maxConcurrent := p.maxConcurrent.getD a.maxConcurrent }

def mergeAiSettings (a : AiSettings) (p : PartialAiSettings) : AiSettings :=
  { model := p.model.getD a.model
    temperature := p.temperature.getD a.temperature
    maxTokens := p.maxTokens.getD a.maxTokens
    systemMessage := p.systemMessage.getD a.systemMessage }

def mergeTaskSettings (a : TaskSettings) (p : PartialTaskSettings) : TaskSettings :=
  { maxContextSnippets := p.maxContextSnippets.getD a.maxContextSnippets
    maxFileSize := p.maxFileSize.getD a.maxFileSize
    prioritizeErrorContext := p.prioritizeErrorContext.getD a.prioritizeErrorContext }

def mergePullRequestSettings (a : PullRequestSettings) (p : PartialPullRequestSettings) :
    PullRequestSettings :=
  { defaultAsDraft := p.defaultAsDraft.getD a.defaultAsDraft
    defaultBaseBranch := p.defaultBaseBranch.getD a.defaultBaseBranch
    titleMarker := p.titleMarker.getD a.titleMarker
    addLabels := p.addLabels.getD a.addLabels
    createCheckList := p.createCheckList.getD a.createCheckList }

def mergeSecuritySettings (a : SecuritySettings) (p : PartialSecuritySettings) :
    SecuritySettings :=
  { tokenEnvName := p.tokenEnvName.getD a.tokenEnvName
    validateCodeBeforeCommit := p.validateCodeBeforeCommit.getD a.validateCodeBeforeCommit
    allowedFileTypes := p.allowedFileTypes.getD a.allowedFileTypes
    tokens := match p.tokens with | some t => some t | none => a.tokens
    credentials := match p.credentials with | some t => some t | none => a.credentials }

def mergeBatchSettings (a : BatchSettings) (p : PartialBatchSettings) : BatchSettings :=
  { maxConcurrent := p.maxConcurrent.getD a.maxConcurrent
    maxIssuesPerBatch := p.maxIssuesPerBatch.getD a.maxIssuesPerBatch }

def mergeDebugSettings (a : DebugSettings) (p : PartialDebugSettings) : DebugSettings :=
  { enabled := p.enabled.getD a.enabled
    saveResponses := p.saveResponses.getD a.saveResponses
    verboseLogging := p.verboseLogging.getD a.verboseLogging }

/-- `mergeConfig` on a schema-shaped document: a present section (a truthy
object) is merged recursively, an absent one leaves the target section. -/
def mergeConfigT (c : Config) (p : PartialConfig) : Config :=
  { github := match p.github with | some s => mergeGithubSettings c.github s | none => c.github
    ai := match p.ai with | some s => mergeAiSettings c.ai s | none => c.ai
    task := match p.task with | some s => mergeTaskSettings c.task s | none => c.task
    pullRequest := match p.pullRequest with
      | some s => mergePullRequestSettings c.pullRequest s
      | none => c.pullRequest
    security := match p.security with
      | some s => mergeSecuritySettings c.security s
      | none => c.security
    batch := match p.batch with | some s => mergeBatchSettings c.batch s | none => c.batch
    debug := match p.debug with | some s => mergeDebugSettings c.debug s | none => c.debug }

/-! ### Environment overrides (`loadFromEnvironment`, lines 143-188) -/

/-- The recognised environment variables; a `none` field is an unset variable
(`GITHUB_TOKEN` is only probed for a warning and does not affect the state). -/
structure Env where
  GITHUB_TOKEN : Option String := none
  AI_MODEL : Option String := none
  AI_TEMPERATURE : Option String := none
  AI_MAX_TOKENS : Option String := none
  DEBUG_MODE : Option String := none
  PR_AS_DRAFT : Option String := none
  MAX_CONCURRENT_ISSUES : Option String := none

/-- JS truthiness of `process.env.X`: set and non-empty. -/
def envSet : Option String → Bool
  | some s => decide (s ≠ "")
  | none => false

/-- `if (process.env.AI_MODEL) currentConfig.ai.model = process.env.AI_MODEL`. -/
def applyAiModel (v : Option String) (c : Config) : Config :=
  match v with
  | some s => if s = "" then c else { c with ai := { c.ai with model := s } }
  | none => c

/-- `AI_TEMPERATURE`: parsed with `parseFloat`, ignored when `NaN`. -/
def applyAiTemperature (v : Option String) (c : Config) : Config :=
  match v with
  | some s =>
    if s = "" then c
    else
      match jsParseFloat s with
      | some q => { c with ai := { c.ai with temperature := q } }
      | none => c
  | none => c

/-- `AI_MAX_TOKENS`: parsed with `parseInt(_, 10)`, ignored when `NaN`. -/
def applyAiMaxTokens (v : Option String) (c : Config) : Config :=
  match v with
  | some s =>
    if s = "" then c
    else
      match jsParseInt s with
      | some n => { c with ai := { c.ai with maxTokens := n } }
      | none => c
  | none => c

/-- `if (process.env.DEBUG_MODE === 'true')`: enables debug and verbose. -/
def applyDebugMode (v : Option String) (c : Config) : Config :=
  if v = some "true" then
    { c with debug := { c.debug with enabled := true, verboseLogging := true } }
  else c

/-- `if (process.env.PR_AS_DRAFT === 'false')`: forces non-draft PRs. -/
def applyPrAsDraft (v : Option String) (c : Config) : Config :=
  if v = some "false" then
    { c with pullRequest := { c.pullRequest with defaultAsDraft := false } }
  else c

/-- `MAX_CONCURRENT_ISSUES`: parsed with `parseInt(_, 10)`, ignored when `NaN`. -/
def applyMaxConcurrentIssues (v : Option String) (c : Config) : Config :=
  match v with
  | some s =>
    if s = "" then c
    else
      match jsParseInt s with
      | some n => { c with batch := { c.batch with maxConcurrent := n } }
      | none => c
  | none => c

/-- `loadFromEnvironment` (lines 143-188), applying the six recognised
overrides in the order of the source. -/
def loadFromEnvironment (env : Env) (c : Config) : Config :=
  applyMaxConcurrentIssues env.MAX_CONCURRENT_ISSUES
    (applyPrAsDraft env.PR_AS_DRAFT
      (applyDebugMode env.DEBUG_MODE
        (applyAiMaxTokens env.AI_MAX_TOKENS
          (applyAiTemperature env.AI_TEMPERATURE
            (applyAiModel env.AI_MODEL c)))))

/-! ### Validation and initialization (lines 74-104 and 221-255) -/

structure ValidationResult where
  valid : Bool
  errors : List String
deriving DecidableEq

/-- `validateConfig` (lines 221-255): the six checks, in source order. -/
def validateConfig (c : Config) : ValidationResult :=
  let errors :=
    (if c.ai.model = "" then ["AI model not defined"] else []) ++
    (if c.ai.temperature < 0 ∨ c.ai.temperature > 1
      then ["AI temperature must be between 0 and 1"] else []) ++
    (if c.ai.maxTokens < 100 ∨ c.ai.maxTokens > 10000
      then ["AI maxTokens must be between 100 and 10000"] else []) ++
    (if c.batch.maxConcurrent < 1 then ["Batch maxConcurrent must be at least 1"] else []) ++
    (if c.batch.maxIssuesPerBatch < 1
      then ["Batch maxIssuesPerBatch must be at least 1"] else []) ++
    (if c.security.tokenEnvName = "" then ["Security tokenEnvName not defined"] else [])
  { valid := errors.isEmpty, errors := errors }

/-- Merge of the optional configuration file (line 82-86). -/
def applyFileConfig : Option PartialConfig → Config → Config
  | none, c => c
  | some p, c => mergeConfigT c p

/-- Outcome of one `initialize(configPath)` call: the returned status, the
message of the internally thrown (and caught) error, and the value of the
module-level `currentConfig` after the call. -/
structure InitOutcome where
  ok : Bool
  thrownMessage : Option String
  state : Config
deriving DecidableEq

/-- `initialize` of the configuration module (lines 74-104): reset to
defaults, merge the optional (already parsed) file document, apply the
environment, validate.  A validation failure throws inside the `try`, is
caught, logged and turned into a `false` return — and the `catch` does *not*
reset `currentConfig`, so the merged values stay in place. -/
def initConfig (file : Option PartialConfig) (env : Env) : InitOutcome :=
  let merged := loadFromEnvironment env (applyFileConfig file defaultConfig)
  let v := validateConfig merged
  { ok := v.valid
    thrownMessage := if v.valid then none
      else some ("Configuration validation failed: " ++ String.intercalate ", " v.errors)
    state := merged }

/-! ### `saveConfigToFile` (lines 315-338) -/

/-- The two `delete` statements of `saveConfigToFile`. -/
def stripSecrets (s : SecuritySettings) : SecuritySettings :=
  { s with tokens := none, credentials := none }

/-- Outcome of `saveConfigToFile`: the serialized document and the value of
the module-level `currentConfig` after the call. -/
structure SaveOutcome where
  written : Config
  newState : Config
  ok : Bool
deriving DecidableEq

/-- `saveConfigToFile` (lines 315-338).  `const configToSave = {...currentConfig}`
is a *shallow* copy: `configToSave.security` and `currentConfig.security` are
the same object, so the two `delete configToSave.security.*` statements strip
the secrets from the snapshot *and* from the live configuration. -/
def saveConfigToFile (c : Config) : SaveOutcome :=
  let sharedSecurity := stripSecrets c.security
  { written := { c with security := sharedSecurity }
    newState := { c with security := sharedSecurity }
    ok := true }

/-! ### Trigger detection (`src/modules/trigger_detection`)

The module's three regular expressions are compiled into deterministic
matchers.  Each is backtracking-free: every greedy sub-pattern is either a
character class that excludes the character the pattern requires next
(`[^\/]+` before `\/`, `\s+` before a letter, `\d+` and `[^\/\s]+` and `(.*)`
before the end of the pattern) or an optional literal whose alternative
cannot start the following literal (`s?` before `:`/whitespace), so the
greedy choice is forced and a per-position matcher plus a left-to-right scan
is exactly the JS leftmost-match semantics. -/

/-- Match a literal at the head of the input, returning the rest. -/
def stripLit : List Char → List Char → Option (List Char)
  | [], cs => some cs
  | _ :: _, [] => none
  | p :: ps, c :: cs => if c == p then stripLit ps cs else none

/-- Match a literal case-insensitively (the `i` flag; the pattern is given in
lowercase and the subject character is lowercased before comparison). -/
def stripLitCI : List Char → List Char → Option (List Char)
  | [], cs => some cs
  | _ :: _, [] => none
  | p :: ps, c :: cs => if c.toLower == p then stripLitCI ps cs else none

/-- Greedy `\s+`: at least one JS whitespace character, maximal run. -/
def stripSpaces1 : List Char → Option (List Char)
  | c :: rest => if isJsSpace c then some (rest.dropWhile isJsSpace) else none
  | [] => none

/-- One match of `https?:\/\/([^\/]+)\/([^\/]+)\/issues\/(\d+)` — after the
scheme, the host literal `github.com/` — as destructured at line 29 of the
module: the full match and the three captures. -/
structure UrlMatch where
  full : String
  owner : String
  repo : String
  digits : String
deriving DecidableEq

/-- Attempt the issue-URL pattern
`https?:\/\/github\.com\/([^\/]+)\/([^\/]+)\/issues\/(\d+)` anchored at the
head of `cs`; on success returns the match and the input after it.  The
optional `s` is consumed exactly when present (if the next character is `s`
the greedy branch must be taken, and declining it makes `://` fail on `s`). -/
def matchUrlAt (cs : List Char) : Option (UrlMatch × List Char) :=
  match stripLit "http".data cs with
  | none => none
  | some cs1 =>
    let (scheme, cs2) : String × List Char :=
      match cs1 with
      | 's' :: rest => ("https", rest)
      | _ => ("http", cs1)
    match stripLit "://github.com/".data cs2 with
    | none => none
    | some cs3 =>
      let owner := cs3.takeWhile (fun c => !(c == '/'))
      if owner.isEmpty then none
      else
        match cs3.dropWhile (fun c => !(c == '/')) with
        | '/' :: cs4 =>
          let repo := cs4.takeWhile (fun c => !(c == '/'))
          if repo.isEmpty then none
          else
            match stripLit "/issues/".data (cs4.dropWhile (fun c => !(c == '/'))) with
            | none => none
            | some cs5 =>
              let digits := cs5.takeWhile Char.isDigit
              if digits.isEmpty then none
              else
                some ({ full := scheme ++ "://github.com/" ++ ⟨owner⟩ ++ "/" ++ ⟨repo⟩ ++
                          "/issues/" ++ ⟨digits⟩
                        owner := ⟨owner⟩, repo := ⟨repo⟩, digits := ⟨digits⟩ },
                      cs5.drop digits.length)
        | _ => none

/-- `[...text.matchAll(urlRegex)]`: successive leftmost, non-overlapping
matches (each match consumes at least one character, so `cs.length` steps of
fuel always suffice). -/
def urlMatchesFuel : Nat → List Char → List UrlMatch
  | 0, _ => []
  | _, [] => []
  | fuel + 1, c :: rest =>
    match matchUrlAt (c :: rest) with
    | some (m, after) => m :: urlMatchesFuel fuel after
    | none => urlMatchesFuel fuel rest

/-- All issue-URL matches of a text, in order. -/
def urlMatches (cs : List Char) : List UrlMatch := urlMatchesFuel cs.length cs

/-- Attempt `resolve\s+issues?\s+from\s+(.*)` (case-insensitive) anchored at
the head of `cs`; returns the `(.*)` capture — the rest of the line, since `.`
does not cross a line terminator.  The optional `s?` is consumed exactly when
present: declining a present `s` makes the following `\s+` fail on it. -/
def matchBatchAt (cs : List Char) : Option (List Char) :=
  match stripLitCI "resolve".data cs with
  | none => none
  | some cs1 =>
    match stripSpaces1 cs1 with
    | none => none
    | some cs2 =>
      match stripLitCI "issue".data cs2 with
      | none => none
      | some cs3 =>
        let cs4 : List Char := match cs3 with
          | c :: rest => if c.toLower == 's' then rest else cs3
          | [] => cs3
        match stripSpaces1 cs4 with
        | none => none
        | some cs5 =>
          match stripLitCI "from".data cs5 with
          | none => none
          | some cs6 =>
            match stripSpaces1 cs6 with
            | none => none
            | some cs7 => some (cs7.takeWhile (fun c => !isLineTerm c))

/-- `text.match(batchRegex)`: the capture of the leftmost match, if any. -/
def firstBatchCapture : List Char → Option (List Char)
  | [] => none
  | c :: rest =>
    match matchBatchAt (c :: rest) with
    | some cap => some cap
    | none => firstBatchCapture rest

/-- Attempt `resolve\s+issues?\s+in\s+([^\/]+)\/([^\/\s]+)` (case-insensitive)
anchored at the head of `cs`; returns the two captures.  The final `\s+`
overlaps the `([^\/]+)` owner class (whitespace is not `/`), so this is the
one place where JS backtracking matters.  Writing `w ≥ 1` for the length of
the maximal whitespace run after `in` and `f` for the index of the first `/`
after `in` (necessarily `f ≥ w`), the engine gives the `\s+` quantifier the
largest length `p ∈ [1, w]` with `p < f`: the owner capture always ends at
the first `/`, and the `/` and repo parts do not depend on `p`, so the match
is (a) owner = the run from the end of the whitespace to the first `/` when
some non-whitespace precedes that `/` (`f > w`, first attempt `p = w`
succeeds), and (b) owner = the single last whitespace character when the
first `/` immediately follows the run (`f = w`, backtracked `p = w - 1`,
possible only when `w ≥ 2`); with `w = 1` and `f = w` every `p` fails. -/
def matchRepoAt (cs : List Char) : Option (List Char × List Char) :=
  match stripLitCI "resolve".data cs with
  | none => none
  | some cs1 =>
    match stripSpaces1 cs1 with
    | none => none
    | some cs2 =>
      match stripLitCI "issue".data cs2 with
      | none => none
      | some cs3 =>
        let cs4 : List Char := match cs3 with
          | c :: rest => if c.toLower == 's' then rest else cs3
          | [] => cs3
        match stripSpaces1 cs4 with
        | none => none
        | some cs5 =>
          match stripLitCI "in".data cs5 with
          | none => none
          | some cs6 =>
            let ws := cs6.takeWhile isJsSpace
            let rest := cs6.dropWhile isJsSpace
            if ws.isEmpty then none
            else
              match rest with
              | '/' :: cs8 =>
                -- the first `/` immediately follows the whitespace run: the
                -- greedy `\s+` backtracks one character, which the
                -- overlapping `[^\/]+` owner capture then takes
                match ws.getLast? with
                | some wlast =>
                  if ws.length < 2 then none
                  else
                    let repo := cs8.takeWhile (fun c => !(c == '/' || isJsSpace c))
                    if repo.isEmpty then none else some ([wlast], repo)
                | none => none
              | _ =>
                let owner := rest.takeWhile (fun c => !(c == '/'))
                if owner.isEmpty then none
                else
                  match rest.dropWhile (fun c => !(c == '/')) with
                  | '/' :: cs8 =>
                    let repo := cs8.takeWhile (fun c => !(c == '/' || isJsSpace c))
                    if repo.isEmpty then none else some (owner, repo)
                  | _ => none

/-- `text.match(repoRegex)`: the captures of the leftmost match, if any. -/
def firstRepoMatch : List Char → Option (List Char × List Char)
  | [] => none
  | c :: rest =>
    match matchRepoAt (c :: rest) with
    | some m => some m
    | none => firstRepoMatch rest

/-- An entry of a batch issue list (`extractIssueList`, lines 90-95). -/
structure IssueRef where
  issueUrl : String
  owner : String
  repo : String
  issueNumber : Int
deriving DecidableEq

/-- The record built from one URL match (`parseInt(match[3], 10)` on an
all-digit capture always succeeds; `getD 0` is unreachable). -/
def refOfMatch (m : UrlMatch) : IssueRef :=
  { issueUrl := m.full, owner := m.owner, repo := m.repo,
    issueNumber := (jsParseInt m.digits).getD 0 }

/-- `extractIssueList` (lines 86-96): every issue-URL occurrence of the given
text, in order. -/
def extractIssueList (cs : List Char) : List IssueRef :=
  (urlMatches cs).map refOfMatch

/-- The trigger object returned by `detectTrigger`: a JS object with the
fields the respective branch sets; a missing field is `none`/the default. -/
structure TriggerData where
  issueUrl : Option String := none
  owner : Option String := none
  repo : Option String := none
  issueNumber : Option Int := none
  isBatch : Bool := false
  isRepoWide : Bool := false
  issueList : Option (List IssueRef) := none
deriving DecidableEq

/-- The single-issue trigger (lines 27-38): built from the first URL match
alone. -/
def singleTrigger (m : UrlMatch) : TriggerData :=
  { issueUrl := some m.full, owner := some m.owner, repo := some m.repo,
    issueNumber := some ((jsParseInt m.digits).getD 0), isBatch := false }

/-- The repository-wide rule (lines 57-70): first match of the repo regex. -/
def repoWideCheck (text : String) : Option TriggerData :=
  match firstRepoMatch text.data with
  | some (o, r) =>
    some { isRepoWide := true, owner := some ⟨o⟩, repo := some ⟨r⟩, isBatch := false }
  | none => none

/-- The body of `detectTrigger` on the extracted text (lines 18-73): empty
text yields no trigger; else the first issue URL defines a Single request;
else a batch phrase whose remainder holds at least one issue URL defines a
Batch request; else the repository-wide rule decides. -/
def detectFromText (text : String) : Option TriggerData :=
  if text = "" then none
  else
    match urlMatches text.data with
    | m :: _ => some (singleTrigger m)
    | [] =>
      match firstBatchCapture text.data with
      | some cap =>
        if (extractIssueList cap).length > 0 then
          some { isBatch := true, issueList := some (extractIssueList cap) }
        else repoWideCheck text
      | none => repoWideCheck text

/-- The input of `detectTrigger`: raw text, a record with an optional `text`
field, or a value on which the `input.text` access itself throws (JS `null`
or `undefined`); the module's catch-all turns that throw into `null`. -/
inductive Input where
  | str (s : String)
  | record (text : Option String)
  | null
deriving DecidableEq

/-- `detectTrigger` (lines 13-78).  `typeof input === 'string'` picks the raw
text; otherwise `input.text || ''` reads the field with `''` as fallback; the
`catch` maps the throwing input to `null`. -/
def detectTrigger : Input → Option TriggerData
  | .str s => detectFromText s
  | .record t => detectFromText (t.getD "")
  | .null => none

/-- `validateTrigger` (lines 103-123), including the JS truthiness of each
field check (`0` and `""` are falsy). -/
def validateTrigger : Option TriggerData → Bool
  | none => false
  | some td =>
    if td.isBatch then
      match td.issueList with
      | some l =>
        decide (0 < l.length) &&
        l.all (fun i => decide (i.owner ≠ "") && decide (i.repo ≠ "") &&
          decide (i.issueNumber ≠ 0))
      | none => false
    else if td.isRepoWide then envSet td.owner && envSet td.repo
    else
      envSet td.owner && envSet td.repo &&
      (match td.issueNumber with | some n => decide (n ≠ 0) | none => false)

/-! ### The single-issue pipeline and the entry coordinator (`src/index.js`) -/

/-- Issue data returned by the GitHub collaborator (`fetchIssueData`); only
`number` is consumed by this layer. -/
structure IssueData where
  number : Int
  title : String := ""
  body : String := ""
deriving DecidableEq

/-- The task description produced by `setupTask`; an uninterpreted payload at
this layer. -/
structure TaskDescription where
  payload : String
deriving DecidableEq

/-- One file-change record of the code generator's output. -/
structure FileChange where
  path : String
  content : String
deriving DecidableEq

/-- The code generator's output (`generateAndValidateCode`). -/
structure CodeChanges where
  codeChanges : List FileChange
deriving DecidableEq

/-- The PR creator's output (`createPullRequest`). -/
structure PrResult where
  pullRequestUrl : String
  pullRequestNumber : Int
  branch : String
deriving DecidableEq

/-- The acknowledgement of `provideFeedback`; uninterpreted. -/
structure FeedbackAck where
  ok : Bool := true
deriving DecidableEq

/-- The five external collaborators invoked by `resolveIssue` (§6 of the
spec).  A JS rejection/throw is an `Except.error` carrying `error.message`;
`createVisualization` is the synchronous renderer whose payload is
uninterpreted here. -/
structure Collaborators where
  fetchIssueData : Option String → Except String IssueData
  setupTask : IssueData → Except String TaskDescription
  generateAndValidateCode : TaskDescription → Except String CodeChanges
  createPullRequest : CodeChanges → IssueData → Except String PrResult
  provideFeedback : PrResult → IssueData → Except String FeedbackAck
  createVisualization : PrResult → IssueData → CodeChanges → String

/-- A `ResolutionResult` (§3): the object literals of `resolveIssue`'s two
return paths, with absent keys as `none`. -/
structure ResolutionResult where
  success : Bool
  issueUrl : Option String := none
  issueNumber : Option Int := none
  pullRequestUrl : Option String := none
  pullRequestNumber : Option Int := none
  branch : Option String := none
  changedFiles : Option Nat := none
  visualization : Option String := none
  error : Option String := none
deriving DecidableEq

/-- The failure path of `resolveIssue` (lines 98-105): success flag down, the
original issue URL, the causing error's message. -/
def failRes (issueUrl : Option String) (e : String) : ResolutionResult :=
  { success := false, issueUrl := issueUrl, error := some e }

/-- `resolveIssue` (index.js, lines 61-106): the five stages in order, each
consuming the previous stage's output; the first failure short-circuits into
the catch block. -/
def resolveIssue (c : Collaborators) (t : TriggerData) : ResolutionResult :=
  match c.fetchIssueData t.issueUrl with
  | .error e => failRes t.issueUrl e
  | .ok issueData =>
    match c.setupTask issueData with
    | .error e => failRes t.issueUrl e
    | .ok task =>
      match c.generateAndValidateCode task with
      | .error e => failRes t.issueUrl e
      | .ok changes =>
        match c.createPullRequest changes issueData with
        | .error e => failRes t.issueUrl e
        | .ok pr =>
          match c.provideFeedback pr issueData with
          | .error e => failRes t.issueUrl e
          | .ok _ =>
            { success := true
              issueUrl := t.issueUrl
              issueNumber := some issueData.number
              pullRequestUrl := some pr.pullRequestUrl
              pullRequestNumber := some pr.pullRequestNumber
              branch := some pr.branch
              changedFiles := some changes.codeChanges.length
              visualization := some (c.createVisualization pr issueData changes)
              error := none }

/-- Modelled from the spec: the `batch_processing` module (its `processBatch`)
is not among the sources; §4.4 specifies that every issue produces exactly one
`ResolutionResult` and that the output sequence preserves the input order, so
the canonical outcome of a batch run is the per-issue results in input
order. -/
def processBatch (issues : List IssueRef) (exec : IssueRef → ResolutionResult) :
    List ResolutionResult :=
  issues.map exec

/-- Modelled from the spec: one step of the §9 design note's implementation of
the scheduler — "preserve input ordering by indexing results into a pre-sized
output sequence rather than appending on completion": completing issue `i`
writes its own result into slot `i`. -/
def batchStep (issues : List IssueRef) (exec : IssueRef → ResolutionResult)
    (acc : List (Option ResolutionResult)) (i : Nat) : List (Option ResolutionResult) :=
  match issues[i]? with
  | some x => acc.set i (some (exec x))
  | none => acc

/-- Modelled from the spec: the bounded-concurrency batch run of §4.4,
abstracted over the order in which the concurrently in-flight issues complete
(`order`, any permutation of the indices): a pre-sized output sequence is
filled slot-by-slot as issues complete, each issue's slot depending only on
that issue's own execution. -/
def processBatchWith (order : List Nat) (issues : List IssueRef)
    (exec : IssueRef → ResolutionResult) : List (Option ResolutionResult) :=
  order.foldl (batchStep issues exec) (List.replicate issues.length none)

/-- The trigger object handed to `resolveIssue` for one entry of a batch list
(`processBatch(issueList, resolveIssue)` passes the entry itself). -/
def triggerOfRef (r : IssueRef) : TriggerData :=
  { issueUrl := some r.issueUrl, owner := some r.owner, repo := some r.repo,
    issueNumber := some r.issueNumber, isBatch := false }

/-- `resolveBatch` (index.js, lines 113-115). -/
def resolveBatch (c : Collaborators) (issueList : List IssueRef) : List ResolutionResult :=
  processBatch issueList (fun r => resolveIssue c (triggerOfRef r))

/-- The response envelope of `handleMcpInvocation`: a `{success, message}`
record, a bare `ResolutionResult`, or a `{success, isBatch, results}` record. -/
inductive McpResponse where
  | message (success : Bool) (msg : String)
  | single (r : ResolutionResult)
  | batch (success : Bool) (results : List ResolutionResult)
deriving DecidableEq

/-- `handleMcpInvocation` (index.js, lines 122-173).  `initOk` is the outcome
of the lazy one-time initialization (the body past the init check is reached
exactly when it is `true`). -/
def handleMcpInvocation (c : Collaborators) (initOk : Bool) (input : Input) : McpResponse :=
  if initOk = false then .message false "Failed to initialize OpenHands Resolver MCP"
  else
    match detectTrigger input with
    | none => .message false "No valid GitHub issue detected in the input"
    | some t =>
      if validateTrigger (some t) = false then
        .message false "Invalid trigger data, missing required information"
      else if t.isBatch && (match t.issueList with
          | some l => decide (0 < l.length)
          | none => false) then
        .batch true (resolveBatch c (t.issueList.getD []))
      else .single (resolveIssue c t)

/-! ### Concrete fixtures used by the witnesses -/

/-- A collaborator set on which every stage succeeds. -/
def collabOk : Collaborators :=
  { fetchIssueData := fun _ => .ok { number := 42, title := "t", body := "b" }
    setupTask := fun _ => .ok { payload := "task" }
    generateAndValidateCode := fun _ => .ok { codeChanges := [{ path := "a.js", content := "x" }, { path := "b.js", content := "y" }] }
    createPullRequest := fun _ _ => .ok { pullRequestUrl := "https://github.com/foo/bar/pull/5", pullRequestNumber := 5, branch := "fix-42" }
    provideFeedback := fun _ _ => .ok {}
    createVisualization := fun _ _ _ => "viz" }

/-- A collaborator set whose third stage (code generation) fails. -/
def collabGenFails : Collaborators :=
  { collabOk with generateAndValidateCode := fun _ => .error "generation failed" }

/-- A collaborator set whose fetch stage fails. -/
def collabFetchFails : Collaborators :=
  { collabOk with fetchIssueData := fun _ => .error "network down" }

/-- A single-issue trigger fixture. -/
def trig0 : TriggerData :=
  { issueUrl := some "https://github.com/foo/bar/issues/42", owner := some "foo",
    repo := some "bar", issueNumber := some 42, isBatch := false }

/-- Three batch entries; `exec3` fails on the middle one only. -/
def refs3 : List IssueRef :=
  [ { issueUrl := "https://github.com/a/b/issues/1", owner := "a", repo := "b", issueNumber := 1 },
    { issueUrl := "https://github.com/a/b/issues/2", owner := "a", repo := "b", issueNumber := 2 },
    { issueUrl := "https://github.com/a/b/issues/3", owner := "a", repo := "b", issueNumber := 3 } ]

/-- A per-issue execution function failing exactly on issue number 2. -/
def exec3 (r : IssueRef) : ResolutionResult :=
  if r.issueNumber = 2 then failRes (some r.issueUrl) "stage 3 threw"
  else { success := true, issueUrl := some r.issueUrl, issueNumber := some r.issueNumber }

/-- The trigger produced for `resolve issues in foo/bar`. -/
def trigRepo0 : TriggerData :=
  { owner := some "foo", repo := some "bar", isBatch := false, isRepoWide := true }

/-- An environment setting only `AI_TEMPERATURE=5` (an out-of-range value). -/
def envTemp5 : Env := { AI_TEMPERATURE := some "5" }

/-- An environment setting all six recognised override variables. -/
def envAll : Env :=
  { AI_MODEL := some "my-model", AI_TEMPERATURE := some "0.7",
    AI_MAX_TOKENS := some "2000", DEBUG_MODE := some "true",
    PR_AS_DRAFT := some "false", MAX_CONCURRENT_ISSUES := some "7" }

/-- A configuration whose secret-holding keys are populated. -/
def cfgTokens : Config :=
  { defaultConfig with
    security := { defaultConfig.security with
                  tokens := some "ghp-secret", credentials := some "creds" } }

/-- A text containing two issue URLs. -/
def text42 : String :=
  "Please fix https://github.com/foo/bar/issues/42 and https://github.com/baz/qux/issues/7"

/-- A text matching the batch phrase whose remainder holds no issue URL. -/
def textBatchNone : String := "resolve issues from the backlog"

/-- A repository-wide request input. -/
def inputRepo : Input := Input.str "resolve issues in foo/bar"

/-- A repository-wide request input exercising the backtracking case of the
repo regex: the first `/` immediately follows the whitespace run, so the
`\s+` cedes its last character to the owner capture. -/
def inputRepoWs : Input := Input.str "resolve issues in  /repo"

/-- The trigger the repo regex produces for `inputRepoWs`: the owner capture
is the single backtracked whitespace character (truthy, so it validates). -/
def trigRepoWs : TriggerData :=
  { owner := some " ", repo := some "repo", isBatch := false, isRepoWide := true }

/-! ## Theorems -/

/-! ### Helper lemmas on `objGet`/`objSet`/`deepMergeFields` -/

theorem objGet_objSet_self (t : List (String × JValue)) (k : String) (v : JValue) :
    objGet (objSet t k v) k = some v := by
  induction t with
  | nil => simp [objSet, objGet]
  | cons hd rest ih =>
    obtain ⟨k1, v1⟩ := hd
    by_cases hk : k1 = k
    · simp [objSet, objGet, hk]
    · simp [objSet, objGet, hk, ih]

theorem objGet_objSet_ne (t : List (String × JValue)) (k k1 : String) (v : JValue)
    (h : k1 ≠ k) : objGet (objSet t k1 v) k = objGet t k := by
  induction t with
  | nil => simp [objSet, objGet, h]
  | cons hd rest ih =>
    obtain ⟨k2, v2⟩ := hd
    by_cases hk : k2 = k1
    · subst hk
      simp [objSet, objGet, h]
    · simp only [objSet, if_neg hk]
      by_cases hk2 : k2 = k
      · simp [objGet, hk2]
      · simp [objGet, hk2, ih]

theorem objGet_deepMergeFields_notMem (s : List (String × JValue)) :
    ∀ (t : List (String × JValue)) (k : String), k ∉ s.map Prod.fst →
      objGet (deepMergeFields t s) k = objGet t k := by
  induction s with
  | nil => intro t k _; simp [deepMergeFields]
  | cons hd rest ih =>
    intro t k h
    obtain ⟨k1, sv⟩ := hd
    rw [List.map_cons, List.mem_cons] at h
    push_neg at h
    obtain ⟨hk1, hrest⟩ := h
    have hne : k1 ≠ k := fun e => hk1 e.symm
    cases sv with
    | obj sfields =>
      rw [deepMergeFields, ih _ _ hrest, objGet_objSet_ne _ _ _ _ hne]
    | null =>
      rw [deepMergeFields, ih _ _ hrest, objGet_objSet_ne _ _ _ _ hne]
      exact fun _ h => JValue.noConfusion h
    | bool b =>
      rw [deepMergeFields, ih _ _ hrest, objGet_objSet_ne _ _ _ _ hne]
      exact fun _ h => JValue.noConfusion h
    | num q =>
      rw [deepMergeFields, ih _ _ hrest, objGet_objSet_ne _ _ _ _ hne]
      exact fun _ h => JValue.noConfusion h
    | str s1 =>
      rw [deepMergeFields, ih _ _ hrest, objGet_objSet_ne _ _ _ _ hne]
      exact fun _ h => JValue.noConfusion h
    | arr xs =>
      rw [deepMergeFields, ih _ _ hrest, objGet_objSet_ne _ _ _ _ hne]
      exact fun _ h => JValue.noConfusion h

theorem objGet_deepMergeFields_arr (s : List (String × JValue)) :
    ∀ (t : List (String × JValue)) (k : String) (xs : List JValue),
      keysNodup s → objGet s k = some (JValue.arr xs) →
      objGet (deepMergeFields t s) k = some (JValue.arr xs) := by
  induction s with
  | nil => intro t k xs _ hget; simp [objGet] at hget
  | cons hd rest ih =>
    intro t k xs hnodup hget
    obtain ⟨k1, sv⟩ := hd
    have hnodup1 : k1 ∉ rest.map Prod.fst ∧ keysNodup rest := by
      rw [keysNodup, List.map_cons, List.nodup_cons] at hnodup
      exact hnodup
    by_cases hk : k1 = k
    · subst hk
      rw [objGet, if_pos rfl] at hget
      injection hget with hsv
      subst hsv
      rw [deepMergeFields, objGet_deepMergeFields_notMem rest _ _ hnodup1.1,
        objGet_objSet_self]
      exact fun _ h => JValue.noConfusion h
    · rw [objGet, if_neg hk] at hget
      cases sv with
      | obj sfields => rw [deepMergeFields]; exact ih _ _ _ hnodup1.2 hget
      | null =>
        rw [deepMergeFields]
        · exact ih _ _ _ hnodup1.2 hget
        · exact fun _ h => JValue.noConfusion h
      | bool b =>
        rw [deepMergeFields]
        · exact ih _ _ _ hnodup1.2 hget
        · exact fun _ h => JValue.noConfusion h
      | num q =>
        rw [deepMergeFields]
        · exact ih _ _ _ hnodup1.2 hget
        · exact fun _ h => JValue.noConfusion h
      | str s1 =>
        rw [deepMergeFields]
        · exact ih _ _ _ hnodup1.2 hget
        · exact fun _ h => JValue.noConfusion h
      | arr ys =>
        rw [deepMergeFields]
        · exact ih _ _ _ hnodup1.2 hget
        · exact fun _ h => JValue.noConfusion h

/-- Claim C7: the configuration deep merge is right-biased and recursive only
on object-valued keys — merging `{a:{x:1,y:2}}` with `{a:{y:3}}` yields
`{a:{x:1,y:3}}`, and a list-valued key of the source replaces the target's
value wholesale (for any target, any source with the unique keys of a real JS
object, and any key bound to an array in the source, the merged object binds
that key to exactly the source's array, never an element-wise merge). -/
theorem mergeConfig_deep_merge_spec :
    (mergeConfig
        (JValue.obj [("a", JValue.obj [("x", JValue.num 1), ("y", JValue.num 2)])])
        (JValue.obj [("a", JValue.obj [("y", JValue.num 3)])])
      = JValue.obj [("a", JValue.obj [("x", JValue.num 1), ("y", JValue.num 3)])]) ∧
    (∀ (t s : List (String × JValue)) (k : String) (xs : List JValue),
      keysNodup s → objGet s k = some (JValue.arr xs) →
      objGet (deepMergeFields t s) k = some (JValue.arr xs)) := by
  constructor
  · simp [mergeConfig, JValue.truthy, deepMerge, deepMergeFields, objGet, objSet]
  · exact fun t s k xs h1 h2 => objGet_deepMergeFields_arr s t k xs h1 h2

/-- Claim C7, witness: a list-valued key is replaced wholesale at a concrete
input — merging `{k:[1,2]}` with `{k:[9]}` binds `k` to `[9]`. -/
theorem mergeConfig_deep_merge_spec_witness :
    keysNodup [("k", JValue.arr [JValue.num 9])] ∧
    objGet (deepMergeFields
        [("k", JValue.arr [JValue.num 1, JValue.num 2])]
        [("k", JValue.arr [JValue.num 9])]) "k"
      = some (JValue.arr [JValue.num 9]) :=
  ⟨by decide,
   mergeConfig_deep_merge_spec.2
     [("k", JValue.arr [JValue.num 1, JValue.num 2])]
     [("k", JValue.arr [JValue.num 9])] "k" [JValue.num 9]
     (by decide) (by simp [objGet])⟩

/-! ### Helper lemmas on the batch scheduler's slot-filling fold -/

theorem length_batchStep (issues : List IssueRef) (exec : IssueRef → ResolutionResult)
    (acc : List (Option ResolutionResult)) (i : Nat) :
    (batchStep issues exec acc i).length = acc.length := by
  unfold batchStep
  cases issues[i]? <;> simp

theorem length_foldl_batchStep (issues : List IssueRef)
    (exec : IssueRef → ResolutionResult) (order : List Nat) :
    ∀ acc, (order.foldl (batchStep issues exec) acc).length = acc.length := by
  induction order with
  | nil => intro acc; rfl
  | cons i rest ih => intro acc; rw [List.foldl_cons, ih, length_batchStep]

theorem getElem?_foldl_batchStep_notMem (issues : List IssueRef)
    (exec : IssueRef → ResolutionResult) (order : List Nat) :
    ∀ acc (j : Nat), j ∉ order →
      (order.foldl (batchStep issues exec) acc)[j]? = acc[j]? := by
  induction order with
  | nil => intro acc j _; rfl
  | cons i rest ih =>
    intro acc j hj
    rw [List.mem_cons] at hj
    push_neg at hj
    rw [List.foldl_cons, ih _ _ hj.2]
    unfold batchStep
    cases issues[i]? with
    | none => rfl
    | some x => exact List.getElem?_set_ne (fun e => hj.1 e.symm)

theorem getElem?_foldl_batchStep_mem (issues : List IssueRef)
    (exec : IssueRef → ResolutionResult) (order : List Nat) :
    ∀ acc (j : Nat) (x : IssueRef), j ∈ order → issues[j]? = some x →
      acc.length = issues.length →
      (order.foldl (batchStep issues exec) acc)[j]? = some (some (exec x)) := by
  induction order with
  | nil => intro acc j x hj _ _; simp at hj
  | cons i rest ih =>
    intro acc j x hj hx hlen
    rw [List.foldl_cons]
    by_cases hjr : j ∈ rest
    · exact ih _ j x hjr hx (by rw [length_batchStep]; exact hlen)
    · have hij : i = j := by
        rcases List.mem_cons.mp hj with h | h
        · exact h.symm
        · exact absurd h hjr
      subst hij
      have hjlt : i < issues.length := by
        rcases List.getElem?_eq_some.mp hx with ⟨hlt, _⟩
        exact hlt
      rw [getElem?_foldl_batchStep_notMem issues exec rest _ _ hjr]
      unfold batchStep
      rw [hx]
      exact List.getElem?_set_eq_of_lt _ (hlen ▸ hjlt)

/-- Claim C3: for every non-empty list of N issues and any per-issue execution
function, a batch run — in whatever order the concurrently in-flight issues
complete (`order`, any permutation of the indices) — produces exactly N
results, index-aligned with the input (slot j holds exactly the result of
executing issue j, so one issue's failure surfaces only in its own slot and
every other slot reflects its own issue's independent outcome).
(spec-modelled: the `batch_processing` module is not among the sources;
`processBatchWith`/`processBatch` follow §4.4 and the §9 design note.) -/
theorem processBatch_order_isolated (issues : List IssueRef)
    (exec : IssueRef → ResolutionResult) (order : List Nat)
    (hne : issues ≠ []) (hperm : order.Perm (List.range issues.length)) :
    processBatchWith order issues exec = (processBatch issues exec).map some ∧
    (processBatchWith order issues exec).length = issues.length := by
  have hlen : (processBatchWith order issues exec).length = issues.length := by
    unfold processBatchWith
    rw [length_foldl_batchStep, List.length_replicate]
  refine ⟨?_, hlen⟩
  apply List.ext_get?
  intro j
  simp only [List.get?_eq_getElem?]
  by_cases hj : j < issues.length
  · have hmem : j ∈ order := hperm.mem_iff.mpr (List.mem_range.mpr hj)
    have hx : issues[j]? = some issues[j] := List.getElem?_eq_getElem hj
    unfold processBatchWith
    rw [getElem?_foldl_batchStep_mem issues exec order _ j issues[j] hmem hx
      (List.length_replicate _ _)]
    rw [processBatch, List.getElem?_map, List.getElem?_map, hx]
    rfl
  · rw [List.getElem?_eq_none (by rw [hlen]; omega),
      List.getElem?_eq_none (by simp [processBatch]; omega)]

/-- Claim C3, witness: three issues, completion order 2-0-1, the middle
issue's pipeline failing — the output is index-aligned with the input and
only slot 1 carries the failure. -/
theorem processBatch_order_isolated_witness :
    refs3 ≠ [] ∧ List.Perm [2, 0, 1] (List.range refs3.length) ∧
    processBatchWith [2, 0, 1] refs3 exec3 = (processBatch refs3 exec3).map some ∧
    (processBatch refs3 exec3).map (fun r => r.success) = [true, false, true] :=
  ⟨by simp [refs3], by decide,
   (processBatch_order_isolated refs3 exec3 [2, 0, 1] (by simp [refs3]) (by decide)).1,
   by decide⟩

/-! ### Helper lemmas on the six environment-override updaters -/

theorem applyAiModel_none (c : Config) : applyAiModel none c = c := rfl

theorem applyAiTemperature_none (c : Config) : applyAiTemperature none c = c := rfl

theorem applyAiMaxTokens_none (c : Config) : applyAiMaxTokens none c = c := rfl

theorem applyDebugMode_none (c : Config) : applyDebugMode none c = c := by
  simp [applyDebugMode]

theorem applyPrAsDraft_none (c : Config) : applyPrAsDraft none c = c := by
  simp [applyPrAsDraft]

theorem applyMaxConcurrentIssues_none (c : Config) :
    applyMaxConcurrentIssues none c = c := rfl

@[simp] theorem applyAiModel_temperature (v : Option String) (c : Config) :
    (applyAiModel v c).ai.temperature = c.ai.temperature := by
  unfold applyAiModel; cases v with
  | none => rfl
  | some s => by_cases h : s = "" <;> simp [h]

@[simp] theorem applyAiModel_maxTokens (v : Option String) (c : Config) :
    (applyAiModel v c).ai.maxTokens = c.ai.maxTokens := by
  unfold applyAiModel; cases v with
  | none => rfl
  | some s => by_cases h : s = "" <;> simp [h]

@[simp] theorem applyAiModel_debug (v : Option String) (c : Config) :
    (applyAiModel v c).debug = c.debug := by
  unfold applyAiModel; cases v with
  | none => rfl
  | some s => by_cases h : s = "" <;> simp [h]

@[simp] theorem applyAiModel_pullRequest (v : Option String) (c : Config) :
    (applyAiModel v c).pullRequest = c.pullRequest := by
  unfold applyAiModel; cases v with
  | none => rfl
  | some s => by_cases h : s = "" <;> simp [h]

@[simp] theorem applyAiModel_batch (v : Option String) (c : Config) :
    (applyAiModel v c).batch = c.batch := by
  unfold applyAiModel; cases v with
  | none => rfl
  | some s => by_cases h : s = "" <;> simp [h]

@[simp] theorem applyAiTemperature_model (v : Option String) (c : Config) :
    (applyAiTemperature v c).ai.model = c.ai.model := by
  unfold applyAiTemperature; cases v with
  | none => rfl
  | some s => by_cases h : s = "" <;> cases hq : jsParseFloat s <;> simp [h, hq]

@[simp] theorem applyAiTemperature_maxTokens (v : Option String) (c : Config) :
    (applyAiTemperature v c).ai.maxTokens = c.ai.maxTokens := by
  unfold applyAiTemperature; cases v with
  | none => rfl
  | some s => by_cases h : s = "" <;> cases hq : jsParseFloat s <;> simp [h, hq]

@[simp] theorem applyAiTemperature_debug (v : Option String) (c : Config) :
    (applyAiTemperature v c).debug = c.debug := by
  unfold applyAiTemperature; cases v with
  | none => rfl
  | some s => by_cases h : s = "" <;> cases hq : jsParseFloat s <;> simp [h, hq]

@[simp] theorem applyAiTemperature_pullRequest (v : Option String) (c : Config) :
    (applyAiTemperature v c).pullRequest = c.pullRequest := by
  unfold applyAiTemperature; cases v with
  | none => rfl
  | some s => by_cases h : s = "" <;> cases hq : jsParseFloat s <;> simp [h, hq]

@[simp] theorem applyAiTemperature_batch (v : Option String) (c : Config) :
    (applyAiTemperature v c).batch = c.batch := by
  unfold applyAiTemperature; cases v with
  | none => rfl
  | some s => by_cases h : s = "" <;> cases hq : jsParseFloat s <;> simp [h, hq]

@[simp] theorem applyAiMaxTokens_model (v : Option String) (c : Config) :
    (applyAiMaxTokens v c).ai.model = c.ai.model := by
  unfold applyAiMaxTokens; cases v with
  | none => rfl
  | some s => by_cases h : s = "" <;> cases hq : jsParseInt s <;> simp [h, hq]

@[simp] theorem applyAiMaxTokens_temperature (v : Option String) (c : Config) :
    (applyAiMaxTokens v c).ai.temperature = c.ai.temperature := by
  unfold applyAiMaxTokens; cases v with
  | none => rfl
  | some s => by_cases h : s = "" <;> cases hq : jsParseInt s <;> simp [h, hq]

@[simp] theorem applyAiMaxTokens_debug (v : Option String) (c : Config) :
    (applyAiMaxTokens v c).debug = c.debug := by
  unfold applyAiMaxTokens; cases v with
  | none => rfl
  | some s => by_cases h : s = "" <;> cases hq : jsParseInt s <;> simp [h, hq]

@[simp] theorem applyAiMaxTokens_pullRequest (v : Option String) (c : Config) :
    (applyAiMaxTokens v c).pullRequest = c.pullRequest := by
  unfold applyAiMaxTokens; cases v with
  | none => rfl
  | some s => by_cases h : s = "" <;> cases hq : jsParseInt s <;> simp [h, hq]

@[simp] theorem applyAiMaxTokens_batch (v : Option String) (c : Config) :
    (applyAiMaxTokens v c).batch = c.batch := by
  unfold applyAiMaxTokens; cases v with
  | none => rfl
  | some s => by_cases h : s = "" <;> cases hq : jsParseInt s <;> simp [h, hq]

@[simp] theorem applyDebugMode_ai (v : Option String) (c : Config) :
    (applyDebugMode v c).ai = c.ai := by
  unfold applyDebugMode; split <;> rfl

@[simp] theorem applyDebugMode_pullRequest (v : Option String) (c : Config) :
    (applyDebugMode v c).pullRequest = c.pullRequest := by
  unfold applyDebugMode; split <;> rfl

@[simp] theorem applyDebugMode_batch (v : Option String) (c : Config) :
    (applyDebugMode v c).batch = c.batch := by
  unfold applyDebugMode; split <;> rfl

@[simp] theorem applyPrAsDraft_ai (v : Option String) (c : Config) :
    (applyPrAsDraft v c).ai = c.ai := by
  unfold applyPrAsDraft; split <;> rfl

@[simp] theorem applyPrAsDraft_debug (v : Option String) (c : Config) :
    (applyPrAsDraft v c).debug = c.debug := by
  unfold applyPrAsDraft; split <;> rfl

@[simp] theorem applyPrAsDraft_batch (v : Option String) (c : Config) :
    (applyPrAsDraft v c).batch = c.batch := by
  unfold applyPrAsDraft; split <;> rfl

@[simp] theorem applyMaxConcurrentIssues_ai (v : Option String) (c : Config) :
    (applyMaxConcurrentIssues v c).ai = c.ai := by
  unfold applyMaxConcurrentIssues; cases v with
  | none => rfl
  | some s => by_cases h : s = "" <;> cases hq : jsParseInt s <;> simp [h, hq]

@[simp] theorem applyMaxConcurrentIssues_debug (v : Option String) (c : Config) :
    (applyMaxConcurrentIssues v c).debug = c.debug := by
  unfold applyMaxConcurrentIssues; cases v with
  | none => rfl
  | some s => by_cases h : s = "" <;> cases hq : jsParseInt s <;> simp [h, hq]

@[simp] theorem applyMaxConcurrentIssues_pullRequest (v : Option String) (c : Config) :
    (applyMaxConcurrentIssues v c).pullRequest = c.pullRequest := by
  unfold applyMaxConcurrentIssues; cases v with
  | none => rfl
  | some s => by_cases h : s = "" <;> cases hq : jsParseInt s <;> simp [h, hq]

theorem applyAiModel_set (s : String) (c : Config) (h : s ≠ "") :
    (applyAiModel (some s) c).ai.model = s := by
  simp [applyAiModel, h]

theorem jsParseFloat_empty : jsParseFloat "" = none := rfl

theorem jsParseInt_empty : jsParseInt "" = none := rfl

theorem applyAiTemperature_set (s : String) (q : ℚ) (c : Config)
    (h : jsParseFloat s = some q) :
    (applyAiTemperature (some s) c).ai.temperature = q := by
  by_cases he : s = ""
  · subst he; rw [jsParseFloat_empty] at h; exact Option.noConfusion h
  · simp [applyAiTemperature, he, h]

theorem applyAiTemperature_skip (s : String) (c : Config)
    (h : jsParseFloat s = none) :
    (applyAiTemperature (some s) c).ai.temperature = c.ai.temperature := by
  by_cases he : s = "" <;> simp [applyAiTemperature, he, h]

theorem applyAiMaxTokens_set (s : String) (n : Int) (c : Config)
    (h : jsParseInt s = some n) :
    (applyAiMaxTokens (some s) c).ai.maxTokens = n := by
  by_cases he : s = ""
  · subst he; rw [jsParseInt_empty] at h; exact Option.noConfusion h
  · simp [applyAiMaxTokens, he, h]

theorem applyMaxConcurrentIssues_set (s : String) (n : Int) (c : Config)
    (h : jsParseInt s = some n) :
    (applyMaxConcurrentIssues (some s) c).batch.maxConcurrent = n := by
  by_cases he : s = ""
  · subst he; rw [jsParseInt_empty] at h; exact Option.noConfusion h
  · simp [applyMaxConcurrentIssues, he, h]

/-- Claim C8: for every recognised environment variable, a set value overrides
the file/default value (the environment pass runs after the file merge in
`initialize`), an absent variable leaves the prior value untouched, an
unparsable numeric value (such as `AI_TEMPERATURE=abc`) is ignored, and
`AI_TEMPERATURE=0.7` sets the temperature to exactly `0.7`. -/
theorem loadFromEnvironment_spec (env : Env) (c : Config) :
    (env.AI_MODEL = none →
      (loadFromEnvironment env c).ai.model = c.ai.model) ∧
    (env.AI_TEMPERATURE = none →
      (loadFromEnvironment env c).ai.temperature = c.ai.temperature) ∧
    (env.AI_MAX_TOKENS = none →
      (loadFromEnvironment env c).ai.maxTokens = c.ai.maxTokens) ∧
    (env.DEBUG_MODE = none → (loadFromEnvironment env c).debug = c.debug) ∧
    (env.PR_AS_DRAFT = none →
      (loadFromEnvironment env c).pullRequest = c.pullRequest) ∧
    (env.MAX_CONCURRENT_ISSUES = none →
      (loadFromEnvironment env c).batch = c.batch) ∧
    (∀ s, env.AI_MODEL = some s → s ≠ "" →
      (loadFromEnvironment env c).ai.model = s) ∧
    (∀ s q, env.AI_TEMPERATURE = some s → jsParseFloat s = some q →
      (loadFromEnvironment env c).ai.temperature = q) ∧
    (∀ s, env.AI_TEMPERATURE = some s → jsParseFloat s = none →
      (loadFromEnvironment env c).ai.temperature = c.ai.temperature) ∧
    (∀ s n, env.AI_MAX_TOKENS = some s → jsParseInt s = some n →
      (loadFromEnvironment env c).ai.maxTokens = n) ∧
    (env.DEBUG_MODE = some "true" →
      (loadFromEnvironment env c).debug.enabled = true ∧
      (loadFromEnvironment env c).debug.verboseLogging = true) ∧
    (env.PR_AS_DRAFT = some "false" →
      (loadFromEnvironment env c).pullRequest.defaultAsDraft = false) ∧
    (∀ s n, env.MAX_CONCURRENT_ISSUES = some s → jsParseInt s = some n →
      (loadFromEnvironment env c).batch.maxConcurrent = n) ∧
    jsParseFloat "abc" = none ∧ jsParseFloat "0.7" = some (7/10) ∧
    (∀ file, (initConfig file env).state =
      loadFromEnvironment env (applyFileConfig file defaultConfig)) := by
  refine ⟨?_, ?_, ?_, ?_, ?_, ?_, ?_, ?_, ?_, ?_, ?_, ?_, ?_, by decide,
    by simp [jsParseFloat, isJsSpace, expPart, qpow10, pow10, digitsToNat, digitVal], ?_⟩
  · intro h; simp [loadFromEnvironment, h, applyAiModel_none]
  · intro h; simp [loadFromEnvironment, h, applyAiTemperature_none]
  · intro h; simp [loadFromEnvironment, h, applyAiMaxTokens_none]
  · intro h; simp [loadFromEnvironment, h, applyDebugMode_none]
  · intro h; simp [loadFromEnvironment, h, applyPrAsDraft_none]
  · intro h; simp [loadFromEnvironment, h, applyMaxConcurrentIssues_none]
  · intro s h hs; simp [loadFromEnvironment, h, applyAiModel_set s c hs]
  · intro s q h hq
    simp [loadFromEnvironment, h, applyAiTemperature_set s q _ hq]
  · intro s h hq
    simp [loadFromEnvironment, h, applyAiTemperature_skip s _ hq]
  · intro s n h hn
    simp [loadFromEnvironment, h, applyAiMaxTokens_set s n _ hn]
  · intro h
    constructor <;> simp [loadFromEnvironment, h, applyDebugMode]
  · intro h; simp [loadFromEnvironment, h, applyPrAsDraft]
  · intro s n h hn
    simp [loadFromEnvironment, h, applyMaxConcurrentIssues_set s n _ hn]
  · intro file; rfl

/-- Claim C8, witness: all six variables set on top of the defaults — each
override lands, `AI_TEMPERATURE=0.7` exactly; and `AI_TEMPERATURE=abc` over
an absent variable set leaves the default temperature. -/
theorem loadFromEnvironment_spec_witness :
    (loadFromEnvironment envAll defaultConfig).ai.model = "my-model" ∧
    (loadFromEnvironment envAll defaultConfig).ai.temperature = 7/10 ∧
    (loadFromEnvironment envAll defaultConfig).ai.maxTokens = 2000 ∧
    (loadFromEnvironment envAll defaultConfig).debug.enabled = true ∧
    (loadFromEnvironment envAll defaultConfig).pullRequest.defaultAsDraft = false ∧
    (loadFromEnvironment envAll defaultConfig).batch.maxConcurrent = 7 ∧
    (loadFromEnvironment { AI_TEMPERATURE := some "abc" } defaultConfig).ai.temperature
      = defaultConfig.ai.temperature := by
  have h := loadFromEnvironment_spec envAll defaultConfig
  have habc := loadFromEnvironment_spec { AI_TEMPERATURE := some "abc" } defaultConfig
  exact ⟨h.2.2.2.2.2.2.1 "my-model" rfl (by decide),
    h.2.2.2.2.2.2.2.1 "0.7" (7/10) rfl
      (by simp [jsParseFloat, isJsSpace, expPart, qpow10, pow10, digitsToNat, digitVal]),
    h.2.2.2.2.2.2.2.2.2.1 "2000" 2000 rfl (by decide),
    (h.2.2.2.2.2.2.2.2.2.2.1 rfl).1,
    h.2.2.2.2.2.2.2.2.2.2.2.1 rfl,
    h.2.2.2.2.2.2.2.2.2.2.2.2.1 "7" 7 rfl (by decide),
    habc.2.2.2.2.2.2.2.2.1 "abc" rfl (by decide)⟩

/-! ### Helper lemmas for the initialization and save claims -/

theorem validateConfig_invalid_of_temp (c : Config) (h : c.ai.temperature > 1) :
    (validateConfig c).valid = false := by
  unfold validateConfig
  simp [h]

theorem jsParseFloat_five : jsParseFloat "5" = some 5 := by
  simp [jsParseFloat, isJsSpace, expPart, qpow10, pow10, digitsToNat, digitVal]

theorem envTemp5_temperature :
    (loadFromEnvironment envTemp5 (applyFileConfig none defaultConfig)).ai.temperature = 5 := by
  show (loadFromEnvironment envTemp5 defaultConfig).ai.temperature = 5
  simp [loadFromEnvironment, envTemp5]
  rw [applyAiTemperature_set "5" 5 _ jsParseFloat_five]

theorem envTemp5_invalid :
    (validateConfig (loadFromEnvironment envTemp5 (applyFileConfig none defaultConfig))).valid
      = false :=
  validateConfig_invalid_of_temp _ (by rw [envTemp5_temperature]; norm_num)

/-- Claim C1, counterexample: with no file and `AI_TEMPERATURE=5` the merged
configuration violates the temperature invariant, `initialize` reports
failure — but the stored configuration is *not* left unset/default: it keeps
the partially applied merged values (temperature 5). -/
theorem initConfig_state_counterexample :
    (initConfig none envTemp5).ok = false ∧
    (initConfig none envTemp5).state ≠ defaultConfig := by
  constructor
  · exact envTemp5_invalid
  · intro h
    have htemp := envTemp5_temperature
    have hstate : (initConfig none envTemp5).state =
        loadFromEnvironment envTemp5 (applyFileConfig none defaultConfig) := rfl
    rw [hstate] at h
    rw [h] at htemp
    norm_num [defaultConfig] at htemp

/-- Claim C1 (amended): if, after merging defaults, the optional file and the
environment overrides, any §3 invariant is violated, then `initialize`
reports failure — it internally raises an error whose message carries the
comma-joined validation messages, catches it, and returns `false` — and the
stored process-wide configuration *retains the merged (invalid) values*
rather than being reset to the defaults. -/
theorem initConfig_validation_failure (file : Option PartialConfig) (env : Env)
    (h : (validateConfig
        (loadFromEnvironment env (applyFileConfig file defaultConfig))).valid = false) :
    (initConfig file env).ok = false ∧
    (initConfig file env).thrownMessage =
      some ("Configuration validation failed: " ++
        String.intercalate ", "
          (validateConfig
            (loadFromEnvironment env (applyFileConfig file defaultConfig))).errors) ∧
    (initConfig file env).state =
      loadFromEnvironment env (applyFileConfig file defaultConfig) := by
  refine ⟨h, ?_, rfl⟩
  show (if (validateConfig
      (loadFromEnvironment env (applyFileConfig file defaultConfig))).valid then none
    else some ("Configuration validation failed: " ++
      String.intercalate ", "
        (validateConfig
          (loadFromEnvironment env (applyFileConfig file defaultConfig))).errors)) = _
  rw [h]
  simp

/-- Claim C1 (amended), witness: the concrete invalid environment of the
counterexample discharges the hypothesis. -/
theorem initConfig_validation_failure_witness :
    (validateConfig
      (loadFromEnvironment envTemp5 (applyFileConfig none defaultConfig))).valid = false ∧
    (initConfig none envTemp5).ok = false ∧
    (initConfig none envTemp5).state =
      loadFromEnvironment envTemp5 (applyFileConfig none defaultConfig) :=
  ⟨envTemp5_invalid,
   (initConfig_validation_failure none envTemp5 envTemp5_invalid).1,
   (initConfig_validation_failure none envTemp5 envTemp5_invalid).2.2⟩

theorem stripSecrets_of_none (s : SecuritySettings) (h1 : s.tokens = none)
    (h2 : s.credentials = none) : stripSecrets s = s := by
  cases s
  simp_all [stripSecrets]

/-- Claim C9, counterexample: on a configuration whose `security.tokens` /
`security.credentials` are populated, `saveConfigToFile` does *not* leave the
in-memory configuration unchanged — the shallow `{...currentConfig}` copy
shares the `security` object, so the `delete` statements strip the live
state too. -/
theorem saveConfigToFile_counterexample :
    (saveConfigToFile cfgTokens).newState ≠ cfgTokens := by
  intro h
  have hts := congrArg (fun cfg => cfg.security.tokens) h
  simp [saveConfigToFile, stripSecrets, cfgTokens] at hts

/-- Claim C9 (amended): the snapshot written by `saveConfigToFile` always has
the literal `security.tokens` and `security.credentials` keys absent, whether
or not they were populated; but because the snapshot is a shallow copy whose
`security` section is shared with the live configuration, the stripping also
deletes those keys from the in-memory state — the live configuration is
unchanged only when both keys were already absent. -/
theorem saveConfigToFile_spec (c : Config) :
    (saveConfigToFile c).written.security.tokens = none ∧
    (saveConfigToFile c).written.security.credentials = none ∧
    (saveConfigToFile c).written = { c with security := stripSecrets c.security } ∧
    (saveConfigToFile c).newState = { c with security := stripSecrets c.security } ∧
    (c.security.tokens = none → c.security.credentials = none →
      (saveConfigToFile c).newState = c) := by
  refine ⟨rfl, rfl, rfl, rfl, ?_⟩
  intro h1 h2
  show ({ c with security := stripSecrets c.security } : Config) = c
  rw [stripSecrets_of_none c.security h1 h2]

/-- Claim C9 (amended), witness: on the default configuration (secrets
absent) the written snapshot lacks the secret keys and the live state is
untouched. -/
theorem saveConfigToFile_spec_witness :
    (saveConfigToFile defaultConfig).written.security.tokens = none ∧
    (saveConfigToFile defaultConfig).written.security.credentials = none ∧
    (saveConfigToFile defaultConfig).newState = defaultConfig :=
  ⟨(saveConfigToFile_spec defaultConfig).1,
   (saveConfigToFile_spec defaultConfig).2.1,
   (saveConfigToFile_spec defaultConfig).2.2.2.2 rfl rfl⟩

/-- Claim C2: `resolveIssue` runs the five stages Fetch, TaskSetup,
CodeGeneration, CommitAndPR, Feedback in this fixed order — stage k's failure
is reached only when every earlier stage succeeded, it skips all remaining
stages and yields `success=false` with the original issue URL and the causing
error's message; when all stages succeed, the result aggregates the issue
number, the PR URL/number/branch, the count of changed files and the
visualization payload. -/
theorem resolveIssue_pipeline (c : Collaborators) (t : TriggerData) :
    (∀ e, c.fetchIssueData t.issueUrl = .error e →
      resolveIssue c t = failRes t.issueUrl e) ∧
    (∀ d e, c.fetchIssueData t.issueUrl = .ok d → c.setupTask d = .error e →
      resolveIssue c t = failRes t.issueUrl e) ∧
    (∀ d task e, c.fetchIssueData t.issueUrl = .ok d → c.setupTask d = .ok task →
      c.generateAndValidateCode task = .error e →
      resolveIssue c t = failRes t.issueUrl e) ∧
    (∀ d task chg e, c.fetchIssueData t.issueUrl = .ok d → c.setupTask d = .ok task →
      c.generateAndValidateCode task = .ok chg → c.createPullRequest chg d = .error e →
      resolveIssue c t = failRes t.issueUrl e) ∧
    (∀ d task chg pr e, c.fetchIssueData t.issueUrl = .ok d → c.setupTask d = .ok task →
      c.generateAndValidateCode task = .ok chg → c.createPullRequest chg d = .ok pr →
      c.provideFeedback pr d = .error e →
      resolveIssue c t = failRes t.issueUrl e) ∧
    (∀ d task chg pr a, c.fetchIssueData t.issueUrl = .ok d → c.setupTask d = .ok task →
      c.generateAndValidateCode task = .ok chg → c.createPullRequest chg d = .ok pr →
      c.provideFeedback pr d = .ok a →
      resolveIssue c t =
        { success := true
          issueUrl := t.issueUrl
          issueNumber := some d.number
          pullRequestUrl := some pr.pullRequestUrl
          pullRequestNumber := some pr.pullRequestNumber
          branch := some pr.branch
          changedFiles := some chg.codeChanges.length
          visualization := some (c.createVisualization pr d chg)
          error := none }) := by
  refine ⟨?_, ?_, ?_, ?_, ?_, ?_⟩
  · intro e h1; simp [resolveIssue, h1]
  · intro d e h1 h2; simp [resolveIssue, h1, h2]
  · intro d task e h1 h2 h3; simp [resolveIssue, h1, h2, h3]
  · intro d task chg e h1 h2 h3 h4; simp [resolveIssue, h1, h2, h3, h4]
  · intro d task chg pr e h1 h2 h3 h4 h5; simp [resolveIssue, h1, h2, h3, h4, h5]
  · intro d task chg pr a h1 h2 h3 h4 h5; simp [resolveIssue, h1, h2, h3, h4, h5]

/-- Claim C2, witness: on the all-success collaborators the result aggregates
the concrete values, and on the collaborators whose third stage fails the
result is the failure record with that stage's message. -/
theorem resolveIssue_pipeline_witness :
    resolveIssue collabOk trig0 =
      { success := true
        issueUrl := some "https://github.com/foo/bar/issues/42"
        issueNumber := some 42
        pullRequestUrl := some "https://github.com/foo/bar/pull/5"
        pullRequestNumber := some 5
        branch := some "fix-42"
        changedFiles := some 2
        visualization := some "viz"
        error := none } ∧
    resolveIssue collabGenFails trig0 =
      failRes (some "https://github.com/foo/bar/issues/42") "generation failed" := by
  constructor
  · have h := (resolveIssue_pipeline collabOk trig0).2.2.2.2.2
      { number := 42, title := "t", body := "b" } { payload := "task" }
      { codeChanges := [{ path := "a.js", content := "x" }, { path := "b.js", content := "y" }] }
      { pullRequestUrl := "https://github.com/foo/bar/pull/5", pullRequestNumber := 5,
        branch := "fix-42" } {} rfl rfl rfl rfl rfl
    rw [h]
    decide
  · have h := (resolveIssue_pipeline collabGenFails trig0).2.2.1
      { number := 42, title := "t", body := "b" } { payload := "task" }
      "generation failed" rfl rfl rfl
    rw [h]
    decide

/-- Claim C4: the Trigger Detector never propagates an exception — raw text,
a record carrying a `text` field, empty or missing text, and the malformed
input whose `input.text` access itself throws (the `catch` path, `Input.null`
in the model) all yield the no-trigger result `none`; `detectTrigger` is a
total function into `Option TriggerData`, so every input yields either a
trigger or `none`, never an error. -/
theorem detectTrigger_failsafe :
    detectTrigger (Input.str "") = none ∧
    detectTrigger (Input.record none) = none ∧
    detectTrigger (Input.record (some "")) = none ∧
    detectTrigger Input.null = none :=
  ⟨rfl, rfl, rfl, rfl⟩

/-- Claim C5: for every text in which the issue-URL pattern matches, `detect`
returns a Single request built from the first match alone — its full URL, its
owner and repo captures, and its issue number parsed as an integer — ignoring
every further match. -/
theorem detectTrigger_first_url (text : String) (m : UrlMatch) (ms : List UrlMatch)
    (h : urlMatches text.data = m :: ms) :
    detectTrigger (Input.str text) =
      some { issueUrl := some m.full, owner := some m.owner, repo := some m.repo,
             issueNumber := some ((jsParseInt m.digits).getD 0), isBatch := false } := by
  have hne : text ≠ "" := by
    intro he
    subst he
    rw [show urlMatches ("" : String).data = [] from rfl] at h
    exact List.noConfusion h
  simp [detectTrigger, detectFromText, hne, h, singleTrigger]

/-- Claim C5, witness: the text `text42` holds two issue URLs; `detect`
returns the Single request of the first one — `owner="foo"`, `repo="bar"`,
`issueNumber=42` — and ignores the second. -/
theorem detectTrigger_first_url_witness :
    (urlMatches text42.data).length = 2 ∧
    detectTrigger (Input.str text42) =
      some { issueUrl := some "https://github.com/foo/bar/issues/42",
             owner := some "foo", repo := some "bar",
             issueNumber := some 42, isBatch := false } := by
  constructor
  · decide
  · have h := detectTrigger_first_url text42
      { full := "https://github.com/foo/bar/issues/42", owner := "foo", repo := "bar",
        digits := "42" }
      [{ full := "https://github.com/baz/qux/issues/7", owner := "baz", repo := "qux",
         digits := "7" }]
      (by decide)
    rw [h]
    decide

/-- Claim C6: when the text contains no issue URL but the case-insensitive
batch phrase `resolve issues from …` matches, `detect` extracts every
issue-URL occurrence of the captured remainder into an ordered list and
returns a Batch request exactly when that list is non-empty; when zero issue
URLs follow, it never returns an empty Batch request and instead falls
through to the repository-wide rule. -/
theorem detectTrigger_batch_branch (text : String) (cap : List Char)
    (h1 : urlMatches text.data = [])
    (h2 : firstBatchCapture text.data = some cap) :
    extractIssueList cap = (urlMatches cap).map refOfMatch ∧
    ((extractIssueList cap).length > 0 →
      detectTrigger (Input.str text) =
        some { isBatch := true, issueList := some (extractIssueList cap) }) ∧
    (extractIssueList cap = [] →
      detectTrigger (Input.str text) = repoWideCheck text) := by
  have hne : text ≠ "" := by
    intro he
    subst he
    rw [show firstBatchCapture ("" : String).data = none from rfl] at h2
    exact Option.noConfusion h2
  refine ⟨rfl, ?_, ?_⟩
  · intro hl
    simp [detectTrigger, detectFromText, hne, h1, h2, hl]
  · intro hl
    simp [detectTrigger, detectFromText, hne, h1, h2, hl]

/-- Claim C6, witness: `resolve issues from the backlog` has no issue URL,
the batch phrase matches with remainder `the backlog`, zero issue URLs are
extracted, and `detect` falls through to the repository-wide rule (which
also fails here, so the result is no trigger). -/
theorem detectTrigger_batch_branch_witness :
    urlMatches textBatchNone.data = [] ∧
    firstBatchCapture textBatchNone.data = some "the backlog".data ∧
    extractIssueList "the backlog".data = [] ∧
    detectTrigger (Input.str textBatchNone) = repoWideCheck textBatchNone ∧
    repoWideCheck textBatchNone = none := by
  refine ⟨by decide, by decide, by decide, ?_, by decide⟩
  exact (detectTrigger_batch_branch textBatchNone "the backlog".data
    (by decide) (by decide)).2.2 (by decide)

/-! ### Helper lemmas for the repository-wide dispatch claim -/

theorem repoWideCheck_shape (text : String) (t : TriggerData)
    (h : repoWideCheck text = some t) :
    t.issueUrl = none ∧ t.isBatch = false ∧ t.issueNumber = none ∧
    t.isRepoWide = true := by
  unfold repoWideCheck at h
  split at h
  · injection h with h1
    subst h1
    exact ⟨rfl, rfl, rfl, rfl⟩
  · exact Option.noConfusion h

theorem detectFromText_repoWide_shape (text : String) (t : TriggerData)
    (h1 : detectFromText text = some t) (h2 : t.isRepoWide = true) :
    t.issueUrl = none ∧ t.isBatch = false ∧ t.issueNumber = none := by
  unfold detectFromText at h1
  by_cases he : text = ""
  · simp [he] at h1
  · rw [if_neg he] at h1
    split at h1
    · injection h1 with h3
      subst h3
      simp [singleTrigger] at h2
    · split at h1
      · split at h1
        · injection h1 with h3
          subst h3
          simp at h2
        · have h4 := repoWideCheck_shape text t h1
          exact ⟨h4.1, h4.2.1, h4.2.2.1⟩
      · have h4 := repoWideCheck_shape text t h1
        exact ⟨h4.1, h4.2.1, h4.2.2.1⟩

/-- Claim C10: for every input whose detected trigger is repository-wide and
passes validation, the entry coordinator dispatches it to the single-issue
pipeline `resolveIssue` — dispatch distinguishes only batch from non-batch —
and that trigger carries no issue URL and no issue number, so the Fetch stage
is invoked with an absent issue URL (in particular, when the fetch
collaborator rejects on the absent URL, the response is that single-issue
failure); no dedicated repository-wide execution path exists. -/
theorem handleMcp_repoWide_dispatch (c : Collaborators) (input : Input)
    (t : TriggerData) (h1 : detectTrigger input = some t)
    (h2 : t.isRepoWide = true) (h3 : validateTrigger (some t) = true) :
    handleMcpInvocation c true input = McpResponse.single (resolveIssue c t) ∧
    t.issueUrl = none ∧ t.isBatch = false ∧ t.issueNumber = none ∧
    (∀ e, c.fetchIssueData none = Except.error e →
      handleMcpInvocation c true input = McpResponse.single (failRes none e)) := by
  have hshape : t.issueUrl = none ∧ t.isBatch = false ∧ t.issueNumber = none := by
    cases input with
    | null => exact Option.noConfusion h1
    | str s => exact detectFromText_repoWide_shape s t h1 h2
    | record o => exact detectFromText_repoWide_shape (o.getD "") t h1 h2
  obtain ⟨hu, hb, hn⟩ := hshape
  have hmain : handleMcpInvocation c true input = McpResponse.single (resolveIssue c t) := by
    simp [handleMcpInvocation, h1, h3, hb]
  refine ⟨hmain, hu, hb, hn, ?_⟩
  intro e he
  rw [hmain]
  simp [resolveIssue, hu, he]

/-- Claim C10, witness: the input `resolve issues in foo/bar` is detected as
the repository-wide trigger, passes validation, and is dispatched to
`resolveIssue`; with a fetch collaborator that rejects on the absent issue
URL, the response is that single-issue failure.  The same holds for
`resolve issues in  /repo`, where the repo regex matches only by
backtracking the final `\s+` into the owner capture (owner `" "`). -/
theorem handleMcp_repoWide_dispatch_witness :
    detectTrigger inputRepo = some trigRepo0 ∧
    validateTrigger (some trigRepo0) = true ∧
    handleMcpInvocation collabFetchFails true inputRepo =
      McpResponse.single (failRes none "network down") ∧
    detectTrigger inputRepoWs = some trigRepoWs ∧
    validateTrigger (some trigRepoWs) = true ∧
    handleMcpInvocation collabFetchFails true inputRepoWs =
      McpResponse.single (failRes none "network down") := by
  refine ⟨by decide, by decide, ?_, by decide, by decide, ?_⟩
  · exact (handleMcp_repoWide_dispatch collabFetchFails inputRepo trigRepo0
      (by decide) rfl (by decide)).2.2.2.2 "network down" rfl
  · exact (handleMcp_repoWide_dispatch collabFetchFails inputRepoWs trigRepoWs
      (by decide) rfl (by decide)).2.2.2.2 "network down" rfl
